import Mathlib

/-!
Verification of the PhoneAgent web client's live task channel.

The development shallowly embeds three pieces of the client:
* the Pinia websocket store (`src/web/src/stores/websocket.js`):
  connection, reconnection backoff and heartbeat management;
* the human-intervention dialog
  (`src/web/src/components/PlanPreviewDialog.vue`, second document):
  the single-slot intervention coordinator with countdown and responses;
* the task real-time preview's polling loop (`startPolling` /
  `stopPolling` and the poll-merge rule for the step list).

State is passed explicitly; timers are modelled by explicit events
(`tick` for a firing interval, an `Option Nat` result for a scheduled
`setTimeout`).  JavaScript truthiness on optional payload fields is
modelled by `Option` with the falsy values spelled out.
-/

namespace PhoneAgent

namespace WebSocketStore

/-- The four readyState values of a browser WebSocket. -/
inductive ReadyState where
  | CONNECTING
  | OPEN
  | CLOSING
  | CLOSED
deriving DecidableEq, Repr

/-- A transport handle: identity of the underlying WebSocket object plus
its current readyState. -/
structure WsHandle where
  id : Nat
  readyState : ReadyState
deriving DecidableEq, Repr

/-- The mutable refs of the `useWebSocketStore` store:
`ws`, `connected`, `reconnectAttempts`, `reconnectDelay`, and the
module-level `heartbeatTimer` (abstracted to whether it is set).
`nextWsId` supplies fresh identities for transports created by
`new WebSocket(...)`. -/
structure StoreState where
  ws : Option WsHandle
  connected : Bool
  reconnectAttempts : Nat
  reconnectDelay : Nat
  heartbeatActive : Bool
  nextWsId : Nat
deriving DecidableEq, Repr

/-- The store's `maxReconnectAttempts = 10`. -/
def maxReconnectAttempts : Nat := 10

/-- Initial refs: `ws = null`, `connected = false`,
`reconnectAttempts = 0`, `reconnectDelay = 1000`, no heartbeat timer. -/
def initialStore : StoreState :=
  { ws := none
    connected := false
    reconnectAttempts := 0
    reconnectDelay := 1000
    heartbeatActive := false
    nextWsId := 0 }

/-- Function `connect()`: if `ws.value && ws.value.readyState === WebSocket.OPEN`
it logs and returns; otherwise it constructs a new WebSocket (initially
CONNECTING) and stores it in `ws.value`.  The second component counts
the transports opened by this call (0 or 1). -/
def connect (s : StoreState) : StoreState × Nat :=
  match s.ws with
  | some h =>
      if h.readyState = ReadyState.OPEN then
        (s, 0)
      else
        ({ s with ws := some ⟨s.nextWsId, ReadyState.CONNECTING⟩
                  nextWsId := s.nextWsId + 1 }, 1)
  | none =>
      ({ s with ws := some ⟨s.nextWsId, ReadyState.CONNECTING⟩
                nextWsId := s.nextWsId + 1 }, 1)

/-- Handler `onopen`: the transport is now OPEN; sets
`connected = true`, resets `reconnectAttempts` to 0 and
`reconnectDelay` to 1000, sends the subscribe message and starts the
heartbeat. -/
def onopen (s : StoreState) : StoreState :=
  { s with ws := s.ws.map (fun h => { h with readyState := ReadyState.OPEN })
           connected := true
           reconnectAttempts := 0
           reconnectDelay := 1000
           heartbeatActive := true }

/-- Handler `onclose`: the transport has moved to CLOSED; sets
`connected = false`, stops the heartbeat, and if
`reconnectAttempts < maxReconnectAttempts` increments the attempt
counter, schedules `connect()` after the current `reconnectDelay`
(returned as `some delay`), then doubles the delay capped at 30000.
Past the cap nothing is scheduled (`none`). -/
def onclose (s : StoreState) : StoreState × Option Nat :=
  let s1 := { s with ws := s.ws.map (fun h => { h with readyState := ReadyState.CLOSED })
                     connected := false
                     heartbeatActive := false }
  if s1.reconnectAttempts < maxReconnectAttempts then
    ({ s1 with reconnectAttempts := s1.reconnectAttempts + 1
               reconnectDelay := min (s1.reconnectDelay * 2) 30000 },
     some s1.reconnectDelay)
  else
    (s1, none)

/-- Function `disconnect()`: stops the heartbeat, calls `ws.value.close()` when a
transport exists (the Boolean result records that a transport close was
initiated, whose close event will still run the `onclose` handler),
clears `ws.value` to null and sets `connected = false`. -/
def disconnect (s : StoreState) : StoreState × Bool :=
  match s.ws with
  | some _ =>
      ({ s with heartbeatActive := false, ws := none, connected := false }, true)
  | none =>
      ({ s with heartbeatActive := false, connected := false }, false)

/-- Iterated `onclose` (state part only): the store state after `n`
further transport-close events. -/
def oncloseIter (s : StoreState) : Nat → StoreState
  | 0 => s
  | n + 1 => oncloseIter (onclose s).1 n

theorem onclose_attempts_ge (s : StoreState)
    (h : maxReconnectAttempts ≤ s.reconnectAttempts) :
    (onclose s).1.reconnectAttempts = s.reconnectAttempts ∧ (onclose s).2 = none := by
  simp only [onclose]
  have : ¬ s.reconnectAttempts < maxReconnectAttempts := by omega
  simp [this]

theorem oncloseIter_attempts_ge (s : StoreState)
    (h : maxReconnectAttempts ≤ s.reconnectAttempts) :
    ∀ n, (oncloseIter s n).reconnectAttempts = s.reconnectAttempts := by
  intro n
  induction n generalizing s with
  | zero => rfl
  | succ n ih =>
      have h1 := onclose_attempts_ge s h
      simp only [oncloseIter]
      rw [ih (onclose s).1 (by omega)]
      omega

/-- Claim C4 counterexample: starting from a freshly opened connection
(`connect` then `onopen`, so `reconnectAttempts = 0`), `disconnect()`
does close the transport, but the transport's subsequent close event
runs the `onclose` handler, which schedules a `connect()` after 1000 ms;
that scheduled call then opens a brand-new transport.  So a later
`connect()` IS scheduled after `disconnect()`. -/
theorem claim_C4_counterexample :
    (disconnect (onopen (connect initialStore).1)).2 = true ∧
    (onclose (disconnect (onopen (connect initialStore).1)).1).2 = some 1000 ∧
    (connect (onclose (disconnect (onopen (connect initialStore).1)).1).1).2 = 1 := by
  decide

/-- Claim C4 amended: `disconnect()` stops the heartbeat, closes and
clears the transport and clears `connected`; however the transport's
ensuing close event is handled by the same `onclose` handler, which,
whenever `reconnectAttempts < maxReconnectAttempts`, schedules a later
`connect()` after the current backoff delay — the handler does not
distinguish intentional closes. -/
theorem claim_C4_amended (s : StoreState)
    (h : s.reconnectAttempts < maxReconnectAttempts) :
    (disconnect s).1.heartbeatActive = false ∧
    (disconnect s).1.ws = none ∧
    (disconnect s).1.connected = false ∧
    (onclose (disconnect s).1).2 = some s.reconnectDelay := by
  cases hw : s.ws with
  | none => simp [disconnect, hw, onclose, h]
  | some hdl => simp [disconnect, hw, onclose, h]

/-- Witness for C4 amended at the concrete state reached by
`connect; onopen`. -/
theorem claim_C4_amended_witness :
    (disconnect (onopen (connect initialStore).1)).1.heartbeatActive = false ∧
    (disconnect (onopen (connect initialStore).1)).1.ws = none ∧
    (disconnect (onopen (connect initialStore).1)).1.connected = false ∧
    (onclose (disconnect (onopen (connect initialStore).1)).1).2 =
      some (onopen (connect initialStore).1).reconnectDelay :=
  claim_C4_amended (onopen (connect initialStore).1) (by decide)

/-- Claim C5 counterexample: after one `connect()` from the initial
state the stored transport is still CONNECTING; a second `connect()`
call is NOT a no-op — it opens a second transport and changes the
stored state. -/
theorem claim_C5_counterexample :
    (connect initialStore).1.ws.map WsHandle.readyState = some ReadyState.CONNECTING ∧
    (connect (connect initialStore).1).2 = 1 ∧
    (connect (connect initialStore).1).1 ≠ (connect initialStore).1 := by
  decide

/-- Claim C5 amended: `connect()` is a no-op (state unchanged, no
transport opened) only when the existing transport's readyState is
OPEN; when the existing transport is still CONNECTING, `connect()`
opens a new (second) transport. -/
theorem claim_C5_amended (s t : StoreState) (a b : WsHandle)
    (hs : s.ws = some a) (ha : a.readyState = ReadyState.OPEN)
    (ht : t.ws = some b) (hb : b.readyState = ReadyState.CONNECTING) :
    connect s = (s, 0) ∧ (connect t).2 = 1 := by
  constructor
  · simp [connect, hs, ha]
  · simp [connect, ht, hb]

/-- Witness for C5 amended: the OPEN state after `connect; onopen`, and
the CONNECTING state after a bare `connect`. -/
theorem claim_C5_amended_witness :
    connect (onopen (connect initialStore).1) = ((onopen (connect initialStore).1), 0) ∧
    (connect (connect initialStore).1).2 = 1 :=
  claim_C5_amended (onopen (connect initialStore).1) (connect initialStore).1
    ⟨0, ReadyState.OPEN⟩ ⟨0, ReadyState.CONNECTING⟩
    (by decide) rfl (by decide) rfl

/-- Claim C6: on a transport close with `reconnectAttempts` below the
cap, a `connect()` is scheduled after the current backoff delay, the
delay then doubles capped at 30000 ms and the attempt counter
increments; a successful open resets the delay to 1000 and the counter
to 0; and once the attempt counter has reached `maxReconnectAttempts`,
no further close event ever schedules a `connect()`. -/
theorem claim_C6_backoff (s : StoreState) :
    (s.reconnectAttempts < maxReconnectAttempts →
      (onclose s).2 = some s.reconnectDelay ∧
      (onclose s).1.reconnectDelay = min (s.reconnectDelay * 2) 30000 ∧
      (onclose s).1.reconnectAttempts = s.reconnectAttempts + 1) ∧
    ((onopen s).reconnectDelay = 1000 ∧ (onopen s).reconnectAttempts = 0) ∧
    (maxReconnectAttempts ≤ s.reconnectAttempts →
      ∀ n, (onclose (oncloseIter s n)).2 = none) := by
  refine ⟨fun h => ?_, ⟨rfl, rfl⟩, fun h n => ?_⟩
  · simp [onclose, h]
  · have h1 := oncloseIter_attempts_ge s h n
    exact (onclose_attempts_ge (oncloseIter s n) (by omega)).2

/-- Witness for C6 at concrete states: a first close from the fresh
store schedules a reconnect at 1000 ms and doubles the delay; opens
reset the delay; a store at the attempt cap schedules nothing even
after three more closes. -/
theorem claim_C6_backoff_witness :
    (onclose initialStore).2 = some 1000 ∧
    (onclose initialStore).1.reconnectDelay = 2000 ∧
    (onopen initialStore).reconnectDelay = 1000 ∧
    (onclose (oncloseIter { initialStore with reconnectAttempts := 10 } 3)).2 = none := by
  obtain ⟨h1, h2, -⟩ := claim_C6_backoff initialStore
  obtain ⟨ha, hb, -⟩ := h1 (by decide)
  obtain ⟨-, -, h3⟩ := claim_C6_backoff { initialStore with reconnectAttempts := 10 }
  exact ⟨ha, hb.trans (by decide), h2.1, h3 (by decide) 3⟩

end WebSocketStore

namespace InterventionDialog

/-- JavaScript `v || d` on an optional numeric field: `undefined`,
`null` and `0` are falsy and yield the default. -/
def jsOrNat (v : Option Nat) (d : Nat) : Nat :=
  match v with
  | none => d
  | some 0 => d
  | some n => n

/-- JavaScript `v || d` on an optional array field: `undefined` and
`null` are falsy and yield the default; an array (even an empty one)
is truthy and is used unchanged. -/
def jsOrList (v : Option (List String)) (d : List String) : List String :=
  match v with
  | none => d
  | some l => l

/-- JavaScript `v || d` on an optional string field: `undefined`,
`null` and the empty string are falsy and yield the default. -/
def jsOrStr (v : Option String) (d : String) : String :=
  match v with
  | none => d
  | some s => if s = "" then d else s

/-- Payload of a `human-intervention-needed` event (`event.detail`).
Optional fields are `Option`; `none` stands for an absent or null
field. -/
structure InterventionData where
  intervention_type : String
  message : String
  request_id : String
  task_id : String
  timeout : Option Nat
  options : Option (List String)
  input_type : Option String
  placeholder : Option String
deriving DecidableEq, Repr

/-- The `human_intervention_response` message's `data` object as built
by `sendResponse` (the envelope `type` field is constant and omitted). -/
structure Response where
  request_id : String
  task_id : String
  success : Bool
  response_type : String
  selected_option : Option String
  input_value : Option String
  error : Option String
deriving DecidableEq, Repr

/-- The dialog component's refs plus the module-level `countdownTimer`
(abstracted to whether the interval is set) and whether the
`human-intervention-needed` window listener is still attached (it is
removed on unmount). -/
structure DialogState where
  visible : Bool
  interventionType : String
  message : String
  options : List String
  inputType : String
  placeholder : String
  inputValue : String
  timeout : Nat
  remainingTime : Nat
  requestId : String
  taskId : String
  countdownActive : Bool
  listenerAttached : Bool
deriving DecidableEq, Repr

/-- Initial refs of the dialog component. -/
def initialDialog : DialogState :=
  { visible := false
    interventionType := ""
    message := ""
    options := []
    inputType := "text"
    placeholder := ""
    inputValue := ""
    timeout := 60
    remainingTime := 0
    requestId := ""
    taskId := ""
    countdownActive := false
    listenerAttached := true }

/-- Function `handleInterventionRequest(event)`: unconditionally copies the
event payload into the single slot (`interventionType`, `message`,
`requestId`, `taskId`, `timeout` with `|| 60` defaulting), fills the
kind-specific fields (`options || ['确认','取消']` for confirm,
`input_type`/`placeholder` defaults and cleared input for input), shows
the dialog, sets `remainingTime` to the timeout and (re)starts the
countdown.  There is no check for an already-pending request. -/
def handleInterventionRequest (s : DialogState) (d : InterventionData) : DialogState :=
  let t := jsOrNat d.timeout 60
  let s1 := { s with interventionType := d.intervention_type
                     message := d.message
                     requestId := d.request_id
                     taskId := d.task_id
                     timeout := t }
  let s2 :=
    if d.intervention_type = "confirm" then
      { s1 with options := jsOrList d.options ["确认", "取消"] }
    else if d.intervention_type = "input" then
      { s1 with inputType := jsOrStr d.input_type "text"
                placeholder := jsOrStr d.placeholder "请输入..."
                inputValue := "" }
    else s1
  { s2 with visible := true, remainingTime := t, countdownActive := true }

/-- Function `sendResponse(response)`: wraps the partial response with the
current `requestId` and `taskId`. -/
def sendResponse (s : DialogState) (success : Bool) (rtype : String)
    (sel inp err : Option String) : Response :=
  { request_id := s.requestId
    task_id := s.taskId
    success := success
    response_type := rtype
    selected_option := sel
    input_value := inp
    error := err }

/-- Function `handleConfirm(selectedOption)`: stops the countdown, sends a
success/confirm response with the chosen option, hides the dialog. -/
def handleConfirm (s : DialogState) (opt : String) : DialogState × Option Response :=
  ({ s with countdownActive := false, visible := false },
   some (sendResponse s true "confirm" (some opt) none none))

/-- Function `handleSubmit()`: a whitespace-only input is rejected locally;
otherwise stops the countdown, sends a success/input response with the
typed value, hides the dialog and clears the input. -/
def handleSubmit (s : DialogState) : DialogState × Option Response :=
  if s.inputValue.trim = "" then
    (s, none)
  else
    ({ s with countdownActive := false, visible := false, inputValue := "" },
     some (sendResponse s true "input" none (some s.inputValue) none))

/-- Function `handleCancel()`: stops the countdown, sends a failure response
with error `User cancelled` and the current intervention type, hides
the dialog and clears the input. -/
def handleCancel (s : DialogState) : DialogState × Option Response :=
  ({ s with countdownActive := false, visible := false, inputValue := "" },
   some (sendResponse s false s.interventionType none none (some "User cancelled")))

/-- Function `handleTimeout()`: sends a failure response with error `Timeout`
and the current intervention type, hides the dialog and clears the
input (the interval callback has already stopped the countdown). -/
def handleTimeout (s : DialogState) : DialogState × Option Response :=
  ({ s with visible := false, inputValue := "" },
   some (sendResponse s false s.interventionType none none (some "Timeout")))

/-- One firing of the countdown interval: decrements `remainingTime`;
when it reaches zero, stops the countdown (`stopCountdown`) and runs
`handleTimeout`. -/
def countdownTick (s : DialogState) : DialogState × Option Response :=
  let r := s.remainingTime - 1
  if r = 0 then
    handleTimeout { s with remainingTime := r, countdownActive := false }
  else
    ({ s with remainingTime := r }, none)

/-- The external stimuli the dialog component reacts to.  Click and
typing events originate from the dialog's own buttons and input box, so
they can only be delivered while the dialog is visible (and, per the
template, in the matching `interventionType` branch); `tick` is the
countdown interval firing, so it requires an active countdown. -/
inductive Event where
  | receive (d : InterventionData)
  | clickConfirm (opt : String)
  | clickSubmit
  | clickCancel
  | setInput (text : String)
  | tick
  | unmount
deriving DecidableEq, Repr

/-- Process one event against the component state, producing at most
one outbound `human_intervention_response`.  After unmount the
component is gone: every event is a no-op. -/
def step (s : DialogState) (e : Event) : DialogState × Option Response :=
  if s.listenerAttached = false then
    (s, none)
  else
    match e with
    | Event.receive d => (handleInterventionRequest s d, none)
    | Event.clickConfirm opt =>
        if s.visible = true ∧ s.interventionType = "confirm" then
          handleConfirm s opt
        else (s, none)
    | Event.clickSubmit =>
        if s.visible = true ∧ s.interventionType = "input" then
          handleSubmit s
        else (s, none)
    | Event.clickCancel =>
        if s.visible = true ∧ s.interventionType = "input" then
          handleCancel s
        else (s, none)
    | Event.setInput text =>
        if s.visible = true then ({ s with inputValue := text }, none)
        else (s, none)
    | Event.tick =>
        if s.countdownActive = true then countdownTick s
        else (s, none)
    | Event.unmount =>
        ({ s with countdownActive := false, listenerAttached := false }, none)

/-- Run a list of events, collecting every response sent. -/
def run (s : DialogState) : List Event → DialogState × List Response
  | [] => (s, [])
  | e :: es =>
      let p := step s e
      let q := run p.1 es
      (q.1, p.2.toList ++ q.2)

/-- The request ids carried by the `receive` events of a trace. -/
def receiveIds : List Event → List String
  | [] => []
  | Event.receive d :: es => d.request_id :: receiveIds es
  | _ :: es => receiveIds es

/-- A concrete confirm-kind intervention payload. -/
def dConfirm1 : InterventionData :=
  { intervention_type := "confirm"
    message := "m1"
    request_id := "r1"
    task_id := "t1"
    timeout := some 5
    options := none
    input_type := none
    placeholder := none }

/-- A second confirm-kind intervention payload for the same task. -/
def dConfirm2 : InterventionData :=
  { intervention_type := "confirm"
    message := "m2"
    request_id := "r2"
    task_id := "t1"
    timeout := some 9
    options := none
    input_type := none
    placeholder := none }

/-- A confirm-kind payload with an explicit non-empty options list. -/
def dConfirmOpts : InterventionData :=
  { intervention_type := "confirm"
    message := "m3"
    request_id := "r3"
    task_id := "t1"
    timeout := some 5
    options := some ["A", "B"]
    input_type := none
    placeholder := none }

/-- A confirm-kind payload with a one-second timeout. -/
def dConfirmShort : InterventionData :=
  { intervention_type := "confirm"
    message := "m4"
    request_id := "r4"
    task_id := "t1"
    timeout := some 1
    options := none
    input_type := none
    placeholder := none }

theorem handleInterventionRequest_proj (s : DialogState) (d : InterventionData) :
    (handleInterventionRequest s d).requestId = d.request_id ∧
    (handleInterventionRequest s d).taskId = d.task_id ∧
    (handleInterventionRequest s d).message = d.message ∧
    (handleInterventionRequest s d).interventionType = d.intervention_type ∧
    (handleInterventionRequest s d).visible = true ∧
    (handleInterventionRequest s d).countdownActive = true ∧
    (handleInterventionRequest s d).timeout = jsOrNat d.timeout 60 ∧
    (handleInterventionRequest s d).remainingTime = jsOrNat d.timeout 60 := by
  simp only [handleInterventionRequest]
  split
  · simp
  · split <;> simp

theorem handleInterventionRequest_options (s : DialogState) (d : InterventionData)
    (hk : d.intervention_type = "confirm") :
    (handleInterventionRequest s d).options = jsOrList d.options ["确认", "取消"] := by
  simp [handleInterventionRequest, hk]

theorem step_receive (s : DialogState) (d : InterventionData)
    (h : s.listenerAttached = true) :
    step s (Event.receive d) = (handleInterventionRequest s d, none) := by
  simp [step, h]

/-- Claim C1 counterexample: with `r1` pending (visible dialog), a
second `human-intervention-needed` event for the same task is NOT
dropped — the slot now holds the second event's requestId, message and
a countdown restarted from the second event's timeout. -/
theorem claim_C1_counterexample :
    (step initialDialog (Event.receive dConfirm1)).1.visible = true ∧
    (step initialDialog (Event.receive dConfirm1)).1.requestId = "r1" ∧
    (step (step initialDialog (Event.receive dConfirm1)).1 (Event.receive dConfirm2)).1.requestId = "r2" ∧
    (step (step initialDialog (Event.receive dConfirm1)).1 (Event.receive dConfirm2)).1.message = "m2" ∧
    (step (step initialDialog (Event.receive dConfirm1)).1 (Event.receive dConfirm2)).1.remainingTime = 9 := by
  decide

/-- Claim C1 amended: `handleInterventionRequest` performs no
pending-slot check at all — any `human-intervention-needed` event
(first or second) overwrites the single slot with the event's
requestId, taskId and message, shows the dialog and restarts the
countdown from the event's timeout; no response is sent for the
displaced request. -/
theorem claim_C1_overwrite (s : DialogState) (d : InterventionData)
    (h : s.listenerAttached = true) :
    (step s (Event.receive d)).2 = none ∧
    (step s (Event.receive d)).1.requestId = d.request_id ∧
    (step s (Event.receive d)).1.taskId = d.task_id ∧
    (step s (Event.receive d)).1.message = d.message ∧
    (step s (Event.receive d)).1.visible = true ∧
    (step s (Event.receive d)).1.countdownActive = true ∧
    (step s (Event.receive d)).1.remainingTime = jsOrNat d.timeout 60 := by
  have hp := handleInterventionRequest_proj s d
  rw [step_receive s d h]
  exact ⟨rfl, hp.1, hp.2.1, hp.2.2.1, hp.2.2.2.2.1, hp.2.2.2.2.2.1, hp.2.2.2.2.2.2.2⟩

/-- Witness for C1 amended: the overwrite applied to the state in which
`r1` is already pending, with the second event's payload. -/
theorem claim_C1_overwrite_witness :
    (step (step initialDialog (Event.receive dConfirm1)).1 (Event.receive dConfirm2)).2 = none ∧
    (step (step initialDialog (Event.receive dConfirm1)).1 (Event.receive dConfirm2)).1.requestId =
      dConfirm2.request_id ∧
    (step (step initialDialog (Event.receive dConfirm1)).1 (Event.receive dConfirm2)).1.taskId =
      dConfirm2.task_id ∧
    (step (step initialDialog (Event.receive dConfirm1)).1 (Event.receive dConfirm2)).1.message =
      dConfirm2.message ∧
    (step (step initialDialog (Event.receive dConfirm1)).1 (Event.receive dConfirm2)).1.visible = true ∧
    (step (step initialDialog (Event.receive dConfirm1)).1 (Event.receive dConfirm2)).1.countdownActive = true ∧
    (step (step initialDialog (Event.receive dConfirm1)).1 (Event.receive dConfirm2)).1.remainingTime =
      jsOrNat dConfirm2.timeout 60 :=
  claim_C1_overwrite (step initialDialog (Event.receive dConfirm1)).1 dConfirm2 (by decide)

/-- Claim C7: when the countdown interval fires with the remaining time
about to reach zero, the coordinator stops the countdown, automatically
sends exactly `{success := false, error := "Timeout"}` carrying the
pending request's requestId and taskId (and its intervention type as
`response_type`), and closes the prompt, leaving no pending request. -/
theorem claim_C7_timeout (s : DialogState)
    (hl : s.listenerAttached = true) (hc : s.countdownActive = true)
    (hr : s.remainingTime ≤ 1) :
    (step s Event.tick).2 =
      some { request_id := s.requestId
             task_id := s.taskId
             success := false
             response_type := s.interventionType
             selected_option := none
             input_value := none
             error := some "Timeout" } ∧
    (step s Event.tick).1.visible = false ∧
    (step s Event.tick).1.countdownActive = false := by
  have h0 : s.remainingTime - 1 = 0 := by omega
  simp [step, hl, hc, countdownTick, h0, handleTimeout, sendResponse]

/-- Witness for C7: a pending confirm request with a one-second
timeout, one tick later. -/
theorem claim_C7_timeout_witness :
    (step (step initialDialog (Event.receive dConfirmShort)).1 Event.tick).2 =
      some { request_id := (step initialDialog (Event.receive dConfirmShort)).1.requestId
             task_id := (step initialDialog (Event.receive dConfirmShort)).1.taskId
             success := false
             response_type := (step initialDialog (Event.receive dConfirmShort)).1.interventionType
             selected_option := none
             input_value := none
             error := some "Timeout" } ∧
    (step (step initialDialog (Event.receive dConfirmShort)).1 Event.tick).1.visible = false ∧
    (step (step initialDialog (Event.receive dConfirmShort)).1 Event.tick).1.countdownActive = false :=
  claim_C7_timeout (step initialDialog (Event.receive dConfirmShort)).1
    (by decide) (by decide) (by decide)

/-- Claim C8: an intervention payload whose `timeout` field is absent,
null or 0 yields a countdown (and displayed remaining time) of 60
seconds, since `data.timeout || 60` treats all three as falsy. -/
theorem claim_C8_default_timeout (s : DialogState) (d : InterventionData)
    (hl : s.listenerAttached = true)
    (h : d.timeout = none ∨ d.timeout = some 0) :
    (step s (Event.receive d)).1.timeout = 60 ∧
    (step s (Event.receive d)).1.remainingTime = 60 := by
  have hp := handleInterventionRequest_proj s d
  have ht : jsOrNat d.timeout 60 = 60 := by
    rcases h with h | h <;> simp [jsOrNat, h]
  rw [step_receive s d hl]
  exact ⟨hp.2.2.2.2.2.2.1.trans ht, hp.2.2.2.2.2.2.2.trans ht⟩

/-- Witness for C8: an event with `timeout = none` and one with
`timeout = some 0`. -/
theorem claim_C8_default_timeout_witness :
    (step initialDialog (Event.receive { dConfirm1 with timeout := none })).1.timeout = 60 ∧
    (step initialDialog (Event.receive { dConfirm1 with timeout := none })).1.remainingTime = 60 ∧
    (step initialDialog (Event.receive { dConfirm1 with timeout := some 0 })).1.timeout = 60 := by
  obtain ⟨h1, h2⟩ := claim_C8_default_timeout initialDialog { dConfirm1 with timeout := none }
    (by decide) (Or.inl rfl)
  obtain ⟨h3, -⟩ := claim_C8_default_timeout initialDialog { dConfirm1 with timeout := some 0 }
    (by decide) (Or.inr rfl)
  exact ⟨h1, h2, h3⟩

/-- Claim C9: for a confirm-kind event without an options field the
dialog presents exactly `["确认", "取消"]` in that order, and a
supplied non-empty options list is used unchanged. -/
theorem claim_C9_default_options (s : DialogState) (d : InterventionData)
    (hl : s.listenerAttached = true) (hk : d.intervention_type = "confirm") :
    (d.options = none → (step s (Event.receive d)).1.options = ["确认", "取消"]) ∧
    (∀ l, d.options = some l → l ≠ [] → (step s (Event.receive d)).1.options = l) := by
  have ho := handleInterventionRequest_options s d hk
  rw [step_receive s d hl]
  constructor
  · intro h
    rw [ho, h]
    rfl
  · intro l h _
    rw [ho, h]
    rfl

/-- Witness for C9: the defaulted options of `dConfirm1` and the
explicit options of `dConfirmOpts`. -/
theorem claim_C9_default_options_witness :
    (step initialDialog (Event.receive dConfirm1)).1.options = ["确认", "取消"] ∧
    (step initialDialog (Event.receive dConfirmOpts)).1.options = ["A", "B"] :=
  ⟨(claim_C9_default_options initialDialog dConfirm1 (by decide) rfl).1 rfl,
   (claim_C9_default_options initialDialog dConfirmOpts (by decide) rfl).2
     ["A", "B"] rfl (by decide)⟩

/-- Number of responses in a sent list that carry a given requestId. -/
def countFor (rid : String) (rs : List Response) : Nat :=
  rs.countP (fun r => r.request_id == rid)

/-- Whether the single slot currently holds `rid` with a way left to
resolve it: either the dialog is visible (operator can click) or the
countdown is still running (timeout can fire). -/
def slotActive (s : DialogState) (rid : String) : Bool :=
  s.requestId == rid && (s.visible || s.countdownActive)

/-- Valuation of a Bool as 0 or 1. -/
def indicator (b : Bool) : Nat :=
  if b then 1 else 0

/-- Whether an event is a `receive` carrying `rid`. -/
def recvMatches (rid : String) : Event → Bool
  | Event.receive d => d.request_id == rid
  | _ => false

theorem countFor_nil (rid : String) : countFor rid [] = 0 := rfl

theorem countFor_singleton (rid : String) (r : Response) :
    countFor rid [r] = indicator (r.request_id == rid) := by
  by_cases h : (r.request_id == rid) = true <;>
    simp [countFor, indicator, List.countP_cons, h]

theorem step_not_attached (s : DialogState) (e : Event)
    (h : s.listenerAttached = false) :
    step s e = (s, none) := by
  simp [step, h]

theorem step_clickConfirm_pos (s : DialogState) (opt : String)
    (hl : s.listenerAttached = true) (hv : s.visible = true)
    (hk : s.interventionType = "confirm") :
    step s (Event.clickConfirm opt) = handleConfirm s opt := by
  simp [step, hl, hv, hk]

theorem step_clickConfirm_neg (s : DialogState) (opt : String)
    (hl : s.listenerAttached = true)
    (hg : ¬(s.visible = true ∧ s.interventionType = "confirm")) :
    step s (Event.clickConfirm opt) = (s, none) := by
  simp only [step, hl, Bool.true_eq_false, if_false]
  rw [if_neg hg]

theorem step_clickSubmit_pos (s : DialogState)
    (hl : s.listenerAttached = true) (hv : s.visible = true)
    (hk : s.interventionType = "input") :
    step s Event.clickSubmit = handleSubmit s := by
  simp [step, hl, hv, hk]

theorem step_clickSubmit_neg (s : DialogState)
    (hl : s.listenerAttached = true)
    (hg : ¬(s.visible = true ∧ s.interventionType = "input")) :
    step s Event.clickSubmit = (s, none) := by
  simp only [step, hl, Bool.true_eq_false, if_false]
  rw [if_neg hg]

theorem step_clickCancel_pos (s : DialogState)
    (hl : s.listenerAttached = true) (hv : s.visible = true)
    (hk : s.interventionType = "input") :
    step s Event.clickCancel = handleCancel s := by
  simp [step, hl, hv, hk]

theorem step_clickCancel_neg (s : DialogState)
    (hl : s.listenerAttached = true)
    (hg : ¬(s.visible = true ∧ s.interventionType = "input")) :
    step s Event.clickCancel = (s, none) := by
  simp only [step, hl, Bool.true_eq_false, if_false]
  rw [if_neg hg]

theorem step_setInput_pos (s : DialogState) (text : String)
    (hl : s.listenerAttached = true) (hv : s.visible = true) :
    step s (Event.setInput text) = ({ s with inputValue := text }, none) := by
  simp [step, hl, hv]

theorem step_setInput_neg (s : DialogState) (text : String)
    (hl : s.listenerAttached = true) (hv : ¬(s.visible = true)) :
    step s (Event.setInput text) = (s, none) := by
  simp only [step, hl, Bool.true_eq_false, if_false]
  rw [if_neg hv]

theorem step_tick_active (s : DialogState)
    (hl : s.listenerAttached = true) (hc : s.countdownActive = true) :
    step s Event.tick = countdownTick s := by
  simp [step, hl, hc]

theorem step_tick_inactive (s : DialogState)
    (hl : s.listenerAttached = true) (hc : ¬(s.countdownActive = true)) :
    step s Event.tick = (s, none) := by
  simp only [step, hl, Bool.true_eq_false, if_false]
  rw [if_neg hc]

theorem step_unmount (s : DialogState) (hl : s.listenerAttached = true) :
    step s Event.unmount =
      ({ s with countdownActive := false, listenerAttached := false }, none) := by
  simp [step, hl]

/-- Key step bound: one event can emit at most the activation the slot
already had, plus one fresh activation when the event is a matching
`receive`; any emission deactivates the slot. -/
theorem step_slot_bound (rid : String) (s : DialogState) (e : Event) :
    countFor rid (step s e).2.toList + indicator (slotActive (step s e).1 rid)
      ≤ indicator (slotActive s rid) + indicator (recvMatches rid e) := by
  cases hL : s.listenerAttached with
  | false =>
      rw [step_not_attached s e hL]
      simp only [Option.toList_none, countFor_nil, Nat.zero_add]
      exact Nat.le_add_right _ _
  | true =>
      cases e with
      | receive d =>
          have hp := handleInterventionRequest_proj s d
          rw [step_receive s d hL]
          simp only [Option.toList_none, countFor_nil, Nat.zero_add]
          have hs : slotActive (handleInterventionRequest s d) rid =
              (d.request_id == rid) := by
            simp [slotActive, hp.1, hp.2.2.2.2.1]
          rw [hs]
          simp only [recvMatches]
          exact Nat.le_add_left _ _
      | clickConfirm opt =>
          by_cases hg : s.visible = true ∧ s.interventionType = "confirm"
          · rw [step_clickConfirm_pos s opt hL hg.1 hg.2]
            simp only [handleConfirm, Option.toList_some, countFor_singleton,
              sendResponse, slotActive, recvMatches]
            rcases Bool.eq_false_or_eq_true (s.requestId == rid) with hq | hq <;>
              simp [hq, hg.1, indicator]
          · rw [step_clickConfirm_neg s opt hL hg]
            simp only [Option.toList_none, countFor_nil, Nat.zero_add]
            exact Nat.le_add_right _ _
      | clickSubmit =>
          by_cases hg : s.visible = true ∧ s.interventionType = "input"
          · rw [step_clickSubmit_pos s hL hg.1 hg.2]
            by_cases he : s.inputValue.trim = ""
            · simp only [handleSubmit, if_pos he, Option.toList_none, countFor_nil,
                Nat.zero_add]
              exact Nat.le_add_right _ _
            · simp only [handleSubmit, if_neg he, Option.toList_some, countFor_singleton,
                sendResponse, slotActive, recvMatches]
              rcases Bool.eq_false_or_eq_true (s.requestId == rid) with hq | hq <;>
                simp [hq, hg.1, indicator]
          · rw [step_clickSubmit_neg s hL hg]
            simp only [Option.toList_none, countFor_nil, Nat.zero_add]
            exact Nat.le_add_right _ _
      | clickCancel =>
          by_cases hg : s.visible = true ∧ s.interventionType = "input"
          · rw [step_clickCancel_pos s hL hg.1 hg.2]
            simp only [handleCancel, Option.toList_some, countFor_singleton,
              sendResponse, slotActive, recvMatches]
            rcases Bool.eq_false_or_eq_true (s.requestId == rid) with hq | hq <;>
              simp [hq, hg.1, indicator]
          · rw [step_clickCancel_neg s hL hg]
            simp only [Option.toList_none, countFor_nil, Nat.zero_add]
            exact Nat.le_add_right _ _
      | setInput text =>
          by_cases hv : s.visible = true
          · rw [step_setInput_pos s text hL hv]
            simp only [Option.toList_none, countFor_nil, Nat.zero_add, slotActive]
            exact Nat.le_add_right _ _
          · rw [step_setInput_neg s text hL hv]
            simp only [Option.toList_none, countFor_nil, Nat.zero_add]
            exact Nat.le_add_right _ _
      | tick =>
          by_cases hc : s.countdownActive = true
          · rw [step_tick_active s hL hc]
            by_cases hz : s.remainingTime - 1 = 0
            · simp only [countdownTick, if_pos hz, handleTimeout, Option.toList_some,
                countFor_singleton, sendResponse, slotActive, recvMatches]
              rcases Bool.eq_false_or_eq_true (s.requestId == rid) with hq | hq <;>
                simp [hq, hc, indicator]
            · simp only [countdownTick, if_neg hz, Option.toList_none, countFor_nil,
                Nat.zero_add, slotActive]
              exact Nat.le_add_right _ _
          · rw [step_tick_inactive s hL hc]
            simp only [Option.toList_none, countFor_nil, Nat.zero_add]
            exact Nat.le_add_right _ _
      | unmount =>
          rw [step_unmount s hL]
          simp only [Option.toList_none, countFor_nil, Nat.zero_add, slotActive,
            recvMatches]
          rcases Bool.eq_false_or_eq_true (s.requestId == rid) with hq | hq <;>
            rcases Bool.eq_false_or_eq_true s.visible with hv | hv <;>
            simp [hq, hv, indicator]

theorem receiveIds_count_cons (rid : String) (e : Event) (es : List Event) :
    (receiveIds (e :: es)).count rid =
      indicator (recvMatches rid e) + (receiveIds es).count rid := by
  cases e with
  | receive d =>
      simp only [receiveIds, recvMatches, List.count_cons, indicator]
      by_cases h : d.request_id == rid
      · simp [h]
        omega
      · simp [h]
  | clickConfirm opt => simp [receiveIds, recvMatches, indicator]
  | clickSubmit => simp [receiveIds, recvMatches, indicator]
  | clickCancel => simp [receiveIds, recvMatches, indicator]
  | setInput text => simp [receiveIds, recvMatches, indicator]
  | tick => simp [receiveIds, recvMatches, indicator]
  | unmount => simp [receiveIds, recvMatches, indicator]

/-- Over any event trace, the number of responses sent for a given
requestId is bounded by the slot's initial activation for that id plus
the number of `receive` events that carry it. -/
theorem run_count_le (rid : String) :
    ∀ (tr : List Event) (s : DialogState),
      countFor rid (run s tr).2 ≤
        indicator (slotActive s rid) + (receiveIds tr).count rid := by
  intro tr
  induction tr with
  | nil =>
      intro s
      simp [run, countFor]
  | cons e es ih =>
      intro s
      have h1 := step_slot_bound rid s e
      have h2 := ih (step s e).1
      have h3 := receiveIds_count_cons rid e es
      have h4 : countFor rid (run s (e :: es)).2 =
          countFor rid (step s e).2.toList + countFor rid (run (step s e).1 es).2 := by
        simp [run, countFor, List.countP_append]
      omega

theorem step_send_deactivates (s : DialogState) (e : Event)
    (hsome : ((step s e).2).isSome = true) :
    (step s e).1.countdownActive = false ∧ (step s e).1.visible = false := by
  cases hL : s.listenerAttached with
  | false => simp [step, hL] at hsome
  | true =>
      cases e with
      | receive d => simp [step, hL] at hsome
      | clickConfirm opt =>
          by_cases hg : s.visible = true ∧ s.interventionType = "confirm"
          · simp [step, hL, hg, handleConfirm]
          · simp [step, hL, hg] at hsome
      | clickSubmit =>
          by_cases hg : s.visible = true ∧ s.interventionType = "input"
          · by_cases he : s.inputValue.trim = ""
            · simp [step, hL, hg, handleSubmit, he] at hsome
            · simp [step, hL, hg, handleSubmit, he]
          · simp [step, hL, hg] at hsome
      | clickCancel =>
          by_cases hg : s.visible = true ∧ s.interventionType = "input"
          · simp [step, hL, hg, handleCancel]
          · simp [step, hL, hg] at hsome
      | setInput text =>
          by_cases hg : s.visible = true
          · simp [step, hL, hg] at hsome
          · simp [step, hL, hg] at hsome
      | tick =>
          by_cases hc : s.countdownActive = true
          · by_cases hz : s.remainingTime - 1 = 0
            · simp [step, hL, hc, countdownTick, hz, handleTimeout]
            · simp [step, hL, hc, countdownTick, hz] at hsome
          · simp [step, hL, hc] at hsome
      | unmount => simp [step, hL] at hsome

/-- Claim C2 amended: at most one response is ever sent per requestId —
whenever a resolving action emits a response, the countdown has been
stopped and the dialog closed before any later action can run, so a
second resolution for the same requestId never sends (first resolution
wins); provided the server never reuses a requestId, every trace from
the initial state sends at most one response for any given id.  (A
pending request may however receive zero responses, as the C2
counterexample shows.) -/
theorem claim_C2_at_most_one_response (tr : List Event) (rid : String)
    (s : DialogState) (e : Event)
    (hdup : (receiveIds tr).Nodup)
    (hsome : ((step s e).2).isSome = true) :
    countFor rid (run initialDialog tr).2 ≤ 1 ∧
    (step s e).1.countdownActive = false ∧
    (step s e).1.visible = false := by
  refine ⟨?_, step_send_deactivates s e hsome⟩
  have h1 := run_count_le rid tr initialDialog
  have h2 : slotActive initialDialog rid = false := by
    simp [slotActive, initialDialog]
  have h3 : (receiveIds tr).count rid ≤ 1 :=
    List.nodup_iff_count_le_one.mp hdup rid
  rw [h2] at h1
  simp only [indicator, if_neg Bool.false_ne_true] at h1
  omega

/-- Witness for C2 amended: the trace receive `r1`, then answer it, then
a whole second request-and-timeout round for `r2`; fresh ids; the
resolving step is the confirm click on the pending `r1`. -/
theorem claim_C2_at_most_one_response_witness :
    countFor "r1"
      (run initialDialog
        [Event.receive dConfirm1, Event.clickConfirm "确认",
         Event.receive dConfirmShort, Event.tick]).2 ≤ 1 ∧
    (step (step initialDialog (Event.receive dConfirm1)).1 (Event.clickConfirm "确认")).1.countdownActive = false ∧
    (step (step initialDialog (Event.receive dConfirm1)).1 (Event.clickConfirm "确认")).1.visible = false :=
  claim_C2_at_most_one_response
    [Event.receive dConfirm1, Event.clickConfirm "确认",
     Event.receive dConfirmShort, Event.tick] "r1"
    (step initialDialog (Event.receive dConfirm1)).1 (Event.clickConfirm "确认")
    (by decide) (by decide)

/-- Claim C2 counterexample: the claim's "exactly one response is ever
sent for its requestId" fails — in the complete trace where `r1` is
pending and a second event for the same task overwrites it before the
component unmounts, zero responses carrying `r1` are ever sent. -/
theorem claim_C2_counterexample :
    (step initialDialog (Event.receive dConfirm1)).1.visible = true ∧
    (step initialDialog (Event.receive dConfirm1)).1.requestId = "r1" ∧
    countFor "r1"
      (run initialDialog
        [Event.receive dConfirm1, Event.receive dConfirm2,
         Event.clickConfirm "确认", Event.unmount]).2 = 0 := by
  decide

end InterventionDialog

namespace TaskPreview

/-- The poll path's merge rule for the step list (the body of the
interval callback in `startPolling`): when the fetched payload has a
`steps` array (`none` models a missing or non-array field) and it is
strictly longer than the locally held list, the local list is replaced
wholesale by the fetched list; otherwise the local list is kept.  The
step elements themselves are opaque to the rule, which only compares
lengths. -/
def pollMergeSteps {α : Type} (cur : List α) (fetched : Option (List α)) : List α :=
  match fetched with
  | some f => if f.length > cur.length then f else cur
  | none => cur

/-- The local step list after a sequence of poll results. -/
def pollTicks {α : Type} (cur : List α) (fs : List (Option (List α))) : List α :=
  fs.foldl pollMergeSteps cur

theorem pollMergeSteps_length_le {α : Type} (cur : List α) (f : Option (List α)) :
    cur.length ≤ (pollMergeSteps cur f).length := by
  cases f with
  | none => exact Nat.le_refl _
  | some l =>
      simp only [pollMergeSteps]
      by_cases h : l.length > cur.length
      · rw [if_pos h]
        omega
      · rw [if_neg h]

/-- Claim C3: a fetched step list strictly longer than the local one
fully replaces it; one of equal or smaller length leaves the local list
unchanged; and across any sequence of poll results the local list's
length never decreases. -/
theorem claim_C3_poll_merge {α : Type} (cur f : List α) (fs : List (Option (List α))) :
    (f.length > cur.length → pollMergeSteps cur (some f) = f) ∧
    (f.length ≤ cur.length → pollMergeSteps cur (some f) = cur) ∧
    cur.length ≤ (pollTicks cur fs).length := by
  refine ⟨fun h => ?_, fun h => ?_, ?_⟩
  · simp [pollMergeSteps, h]
  · simp only [pollMergeSteps]
    rw [if_neg (by omega)]
  · induction fs generalizing cur with
    | nil => exact Nat.le_refl _
    | cons g gs ih =>
        calc cur.length ≤ (pollMergeSteps cur g).length :=
              pollMergeSteps_length_le cur g
          _ ≤ (pollTicks (pollMergeSteps cur g) gs).length := ih _
          _ = (pollTicks cur (g :: gs)).length := rfl

/-- Witness for C3 on concrete lists: a longer poll replaces, an equal
or shorter one is ignored, and a mixed sequence never shrinks the
list. -/
theorem claim_C3_poll_merge_witness :
    pollMergeSteps [10, 20] (some [10, 20, 30]) = [10, 20, 30] ∧
    pollMergeSteps [10, 20] (some [99]) = [10, 20] ∧
    ([10, 20] : List Nat).length ≤
      (pollTicks [10, 20] [some [99], none, some [1, 2, 3]]).length := by
  obtain ⟨h1, -, -⟩ :=
    claim_C3_poll_merge ([10, 20] : List Nat) [10, 20, 30] [some [99], none, some [1, 2, 3]]
  obtain ⟨-, h2, h3⟩ :=
    claim_C3_poll_merge ([10, 20] : List Nat) [99] [some [99], none, some [1, 2, 3]]
  exact ⟨h1 (by decide), h2 (by decide), h3⟩

/-- The component state relevant to the poll loop: the
`pollingTimer` ref (the stored interval handle) plus bookkeeping of
which created intervals are still live (`liveIntervals`) and a supply
of fresh handles, so that "two concurrent poll loops" is expressible. -/
structure PollingState where
  pollingTimer : Option Nat
  liveIntervals : List Nat
  nextId : Nat
deriving DecidableEq, Repr

/-- Initial component state: `pollingTimer = null`, no live interval. -/
def initPolling : PollingState :=
  { pollingTimer := none, liveIntervals := [], nextId := 0 }

/-- Function `startPolling()`: `if (pollingTimer.value) return` — a no-op when a
timer handle is already stored; otherwise `setInterval` creates a fresh
interval and its handle is stored. -/
def startPolling (s : PollingState) : PollingState :=
  match s.pollingTimer with
  | some _ => s
  | none =>
      { pollingTimer := some s.nextId
        liveIntervals := s.nextId :: s.liveIntervals
        nextId := s.nextId + 1 }

/-- Function `stopPolling()`: when a handle is stored, `clearInterval` ends that
interval and the handle is reset to null; otherwise a no-op. -/
def stopPolling (s : PollingState) : PollingState :=
  match s.pollingTimer with
  | some t =>
      { s with pollingTimer := none, liveIntervals := s.liveIntervals.erase t }
  | none => s

/-- The calls the component makes to the pair of functions, in any
order (mount, watch on taskId, poll-callback self-stop, unmount). -/
inductive PollAction where
  | start
  | stop
deriving DecidableEq, Repr

/-- Apply one call. -/
def applyPollAction (s : PollingState) : PollAction → PollingState
  | PollAction.start => startPolling s
  | PollAction.stop => stopPolling s

/-- Apply a sequence of calls. -/
def runPollActions (s : PollingState) (as : List PollAction) : PollingState :=
  as.foldl applyPollAction s

/-- The timer invariant: the set of live intervals is exactly the
stored handle. -/
def timerInv (s : PollingState) : Prop :=
  match s.pollingTimer with
  | some t => s.liveIntervals = [t]
  | none => s.liveIntervals = []

theorem timerInv_init : timerInv initPolling := rfl

theorem timerInv_apply (s : PollingState) (a : PollAction) (h : timerInv s) :
    timerInv (applyPollAction s a) := by
  cases a with
  | start =>
      cases ht : s.pollingTimer with
      | some t => simpa [applyPollAction, startPolling, ht] using h
      | none =>
          simp only [timerInv, ht] at h
          simp [applyPollAction, startPolling, ht, timerInv, h]
  | stop =>
      cases ht : s.pollingTimer with
      | some t =>
          simp only [timerInv, ht] at h
          simp [applyPollAction, stopPolling, ht, timerInv, h]
      | none => simpa [applyPollAction, stopPolling, ht] using h

theorem timerInv_run (as : List PollAction) (s : PollingState) (h : timerInv s) :
    timerInv (runPollActions s as) := by
  induction as generalizing s with
  | nil => exact h
  | cons a as ih => exact ih _ (timerInv_apply s a h)

/-- Claim C10: `startPolling` is a no-op when a timer handle already
exists; `stopPolling` ends the stored interval and resets the handle to
null; and after any sequence of `startPolling`/`stopPolling` calls from
the initial state at most one interval is live — there are never two
concurrent poll loops. -/
theorem claim_C10_single_timer (s : PollingState) (t : Nat)
    (h : s.pollingTimer = some t) (as : List PollAction) :
    startPolling s = s ∧
    (stopPolling s).pollingTimer = none ∧
    (runPollActions initPolling as).liveIntervals.length ≤ 1 := by
  refine ⟨by simp [startPolling, h], by simp [stopPolling, h], ?_⟩
  have hinv := timerInv_run as initPolling timerInv_init
  revert hinv
  simp only [timerInv]
  cases (runPollActions initPolling as).pollingTimer with
  | some u => intro hinv; simp [hinv]
  | none => intro hinv; simp [hinv]

/-- Witness for C10 at a concrete state with a stored handle and a
concrete call sequence ending in a double start. -/
theorem claim_C10_single_timer_witness :
    startPolling (startPolling initPolling) = startPolling initPolling ∧
    (stopPolling (startPolling initPolling)).pollingTimer = none ∧
    (runPollActions initPolling
      [PollAction.start, PollAction.start, PollAction.stop, PollAction.start]).liveIntervals.length ≤ 1 :=
  claim_C10_single_timer (startPolling initPolling) 0 (by decide)
    [PollAction.start, PollAction.start, PollAction.stop, PollAction.start]

end TaskPreview

end PhoneAgent
